import Mathlib

/-!
Verification development for the email-summarizer repository.

Each section shallowly embeds one component of the Python source:

* `Retry` — `src/utils/error_handling.py` (`retry_with_backoff`)
* `QueryVal` — `src/config/search_configs.py` (`QueryValidator`)
* `Summarizer` — `src/summarization/summarizer.py`
* `YamlWriter` — `src/storage/yaml_writer.py`
* `Transcript` — `src/summarization/transcript_generator.py`
* `Settings` — `src/config/settings.py`
* `SearchStore` — `src/config/search_configs.py` (`SearchConfigManager`)

Machine integers do not occur on the verified paths; Python integers are
modelled as `Nat`, Python `float` settings as `Rat`, Python strings as
`String` (with helper functions on `List Char` mirroring the `re` calls
used by the source).  Exceptions are modelled as explicit result
constructors or `Except` values.
-/

namespace EmailSummarizer

/-! ## Retry: embedding of `src/utils/error_handling.py` -/

namespace Retry

/-- Mirrors `RetryConfig` (error_handling.py lines 28-36).  The delay
fields only influence sleeping time, never control flow or results, so
they are carried as rationals and otherwise unused by `retryExec`. -/
structure RetryConfig where
  max_attempts : Nat := 3
  base_delay : Rat := 1
  max_delay : Rat := 60
  exponential_base : Rat := 2
  jitter : Bool := true
  backoff_factor : Rat := 1

/-- One invocation of the wrapped operation can return a value, raise an
exception in the caller-specified retryable set, raise one in the
non-retryable set, or raise any other exception (error_handling.py
lines 105-133 distinguish exactly these four cases). -/
inductive Outcome (α ε : Type) where
  | success (a : α)
  | retryable (e : ε)
  | nonRetryable (e : ε)
  | other (e : ε)

/-- Result of running the wrapped operation under the retry decorator:
either a returned value or a propagated exception, together with the
number of times the operation was invoked. -/
inductive RunResult (α ε : Type) where
  | ok (a : α) (calls : Nat)
  | raisedRetryable (e : ε) (calls : Nat)
  | raisedNonRetryable (e : ε) (calls : Nat)
  | raisedOther (e : ε) (calls : Nat)
  | runtimeError (calls : Nat)
deriving DecidableEq

/-- The loop body of `retry_with_backoff.decorator.wrapper`
(error_handling.py lines 105-139).  `f i` is the outcome of the
(0-based) attempt `i`; `remaining` counts the loop iterations left.
When the loop range is empty (`max_attempts = 0`) the wrapper reaches
the trailing `raise RuntimeError` (line 139), since `last_exception`
can only be set on a path that raises inside the loop. -/
def retryExec (f : Nat → Outcome α ε) : Nat → Nat → RunResult α ε
  | 0, attempt => .runtimeError attempt
  | remaining + 1, attempt =>
    match f attempt with
    | .success a => .ok a (attempt + 1)
    | .nonRetryable e => .raisedNonRetryable e (attempt + 1)
    | .other e => .raisedOther e (attempt + 1)
    | .retryable e =>
      if remaining = 0 then .raisedRetryable e (attempt + 1)
      else retryExec f remaining (attempt + 1)

/-- `retry_with_backoff(config)(func)` applied to one call: run the loop
starting at attempt 0 with `config.max_attempts` iterations available. -/
def retry_with_backoff (config : RetryConfig) (f : Nat → Outcome α ε) : RunResult α ε :=
  retryExec f config.max_attempts 0

/-- Skipping a prefix of retryable attempts: as long as more than `k`
loop iterations remain, `k` consecutive retryable outcomes merely move
the loop forward by `k` attempts. -/
theorem retryExec_retryable_prefix {α ε : Type} (f : Nat → Outcome α ε) (e : Nat → ε) :
    ∀ (k remaining attempt : Nat), k < remaining →
      (∀ i, i < k → f (attempt + i) = .retryable (e (attempt + i))) →
      retryExec f remaining attempt = retryExec f (remaining - k) (attempt + k) := by
  intro k
  induction k with
  | zero => intro remaining attempt _ _; simp
  | succ k ih =>
    intro remaining attempt hlt hpre
    match remaining, hlt with
    | r + 1, hlt =>
      have hf0 : f attempt = .retryable (e attempt) := by
        have := hpre 0 (Nat.succ_pos k)
        simpa using this
      have hr : r ≠ 0 := by omega
      have hstep : retryExec f (r + 1) attempt = retryExec f r (attempt + 1) := by
        simp [retryExec, hf0, hr]
      rw [hstep]
      have hrec := ih r (attempt + 1) (by omega)
        (fun i hi => by
          have := hpre (i + 1) (by omega)
          simpa [Nat.add_assoc, Nat.add_comm 1 i] using this)
      rw [hrec]
      congr 1 <;> omega

end Retry

open Retry in
/-- C2.  For a retry configuration with `max_attempts = n > 0`:
an operation raising a retryable error on every attempt is invoked
exactly `n` times and the last error propagates; an operation that
succeeds on attempt `k < n` (after retryable failures only) returns
that result having been invoked `k+1` times; a non-retryable error on
attempt `k` propagates immediately after `k+1` invocations. -/
theorem claim_C2 {α ε : Type} (cfg : RetryConfig) (f : Nat → Outcome α ε)
    (e : Nat → ε) (hn : 0 < cfg.max_attempts) :
    ((∀ i, i < cfg.max_attempts → f i = .retryable (e i)) →
        retry_with_backoff cfg f
          = .raisedRetryable (e (cfg.max_attempts - 1)) cfg.max_attempts)
    ∧ (∀ (a : α) (k : Nat), k < cfg.max_attempts →
        (∀ i, i < k → f i = .retryable (e i)) → f k = .success a →
        retry_with_backoff cfg f = .ok a (k + 1))
    ∧ (∀ (err : ε) (k : Nat), k < cfg.max_attempts →
        (∀ i, i < k → f i = .retryable (e i)) → f k = .nonRetryable err →
        retry_with_backoff cfg f = .raisedNonRetryable err (k + 1)) := by
  set n := cfg.max_attempts with hndef
  refine ⟨?_, ?_, ?_⟩
  · intro hall
    have h := retryExec_retryable_prefix f e (n - 1) n 0 (by omega)
      (fun i hi => by simpa using hall i (by omega))
    have hlast : f (n - 1) = .retryable (e (n - 1)) := hall (n - 1) (by omega)
    have hrem : n - (n - 1) = 1 := by omega
    unfold retry_with_backoff
    rw [← hndef, h, hrem]
    simp [retryExec, hlast]
    omega
  · intro a k hk hpre hsucc
    have h := retryExec_retryable_prefix f e k n 0 hk
      (fun i hi => by simpa using hpre i hi)
    have hrem : ∃ m, n - k = m + 1 := ⟨n - k - 1, by omega⟩
    obtain ⟨m, hm⟩ := hrem
    unfold retry_with_backoff
    rw [← hndef, h, hm]
    simp [retryExec, hsucc]
  · intro err k hk hpre hraise
    have h := retryExec_retryable_prefix f e k n 0 hk
      (fun i hi => by simpa using hpre i hi)
    have hrem : ∃ m, n - k = m + 1 := ⟨n - k - 1, by omega⟩
    obtain ⟨m, hm⟩ := hrem
    unfold retry_with_backoff
    rw [← hndef, h, hm]
    simp [retryExec, hraise]

open Retry in
/-- Witness for C2 at `max_attempts = 3` with concrete operations. -/
theorem claim_C2_witness :
    retry_with_backoff { max_attempts := 3 }
        (fun i => Outcome.retryable (α := Nat) (ε := Nat) i)
      = .raisedRetryable 2 3
    ∧ retry_with_backoff { max_attempts := 3 }
        (fun i => if i = 2 then Outcome.success (ε := Nat) 7 else Outcome.retryable i)
      = .ok 7 3
    ∧ retry_with_backoff { max_attempts := 3 }
        (fun i => if i = 0 then Outcome.nonRetryable (α := Nat) 9 else Outcome.retryable i)
      = .raisedNonRetryable 9 1 := by
  refine ⟨?_, ?_, ?_⟩
  · exact (claim_C2 { max_attempts := 3 } _ (fun i => i) (by decide)).1
      (fun i _ => rfl)
  · exact (claim_C2 { max_attempts := 3 } _ (fun i => i) (by decide)).2.1
      7 2 (by decide) (fun i hi => by rw [if_neg (by omega)]) rfl
  · exact (claim_C2 { max_attempts := 3 } _ (fun i => i) (by decide)).2.2
      9 0 (by decide) (fun i hi => absurd hi (by omega)) rfl

/-! ## QueryVal: embedding of `QueryValidator` (search_configs.py) -/

namespace QueryVal

/-- `QueryValidator.SUPPORTED_OPERATORS` (search_configs.py lines 163-168). -/
def SUPPORTED_OPERATORS : List String :=
  ["from:", "to:", "cc:", "bcc:", "subject:", "has:", "is:", "in:",
   "after:", "before:", "older_than:", "newer_than:", "size:",
   "larger:", "smaller:", "filename:", "label:", "category:",
   "deliveredto:", "circle:", "rfc822msgid:"]

/-- `QueryValidator.VALID_HAS_VALUES` (lines 171-175). -/
def VALID_HAS_VALUES : List String :=
  ["attachment", "nouserlabels", "userlabels", "yellow-star",
   "blue-info", "red-bang", "orange-guillemet", "red-star",
   "purple-star", "green-star", "yellow-bang"]

/-- `QueryValidator.VALID_IS_VALUES` (lines 177-180). -/
def VALID_IS_VALUES : List String :=
  ["important", "starred", "unread", "read", "chat", "muted",
   "snoozed", "spam", "trash"]

/-- `QueryValidator.VALID_IN_VALUES` (lines 182-185). -/
def VALID_IN_VALUES : List String :=
  ["inbox", "trash", "spam", "unread", "starred", "sent",
   "drafts", "important", "chats", "all", "anywhere"]

/-- Numeric value of an ASCII digit character (`int` on a digit). -/
def dval (c : Char) : Nat := c.toNat - 48

/-- Full match of the regex `\d{4}-\d{2}-\d{2}` (DATE_PATTERNS[0],
line 189): exactly ten characters of the dashed shape. -/
def dateDashShape (s : String) : Bool :=
  match s.data with
  | [y1, y2, y3, y4, c1, m1, m2, c2, d1, d2] =>
    y1.isDigit && y2.isDigit && y3.isDigit && y4.isDigit && c1 == '-' &&
    m1.isDigit && m2.isDigit && c2 == '-' && d1.isDigit && d2.isDigit
  | _ => false

/-- Full match of the regex `\d{4}/\d{2}/\d{2}` (DATE_PATTERNS[1],
line 190). -/
def dateSlashShape (s : String) : Bool :=
  match s.data with
  | [y1, y2, y3, y4, c1, m1, m2, c2, d1, d2] =>
    y1.isDigit && y2.isDigit && y3.isDigit && y4.isDigit && c1 == '/' &&
    m1.isDigit && m2.isDigit && c2 == '/' && d1.isDigit && d2.isDigit
  | _ => false

/-- `year, month, day = map(int, date_str.split('-'))` on a string that
matched the dashed pattern (line 356). -/
def parseDashDate (s : String) : Nat × Nat × Nat :=
  match s.data with
  | [y1, y2, y3, y4, _, m1, m2, _, d1, d2] =>
    (dval y1 * 1000 + dval y2 * 100 + dval y3 * 10 + dval y4,
     dval m1 * 10 + dval m2,
     dval d1 * 10 + dval d2)
  | _ => (0, 0, 0)

/-- The leap-year test on line 363:
`year % 4 == 0 and (year % 100 != 0 or year % 400 == 0)`. -/
def isLeapYear (y : Nat) : Bool :=
  y % 4 == 0 && (y % 100 != 0 || y % 400 == 0)

/-- The calendar checks of `_validate_date_format` applied to a dashed
date (lines 356-366), with the same early-return structure. -/
def validDashDate (y m d : Nat) : Bool :=
  if ¬ (1 ≤ m ∧ m ≤ 12 ∧ 1 ≤ d ∧ d ≤ 31) then false
  else if m = 2 ∧ 29 < d then false
  else if m = 2 ∧ d = 29 ∧ ¬ isLeapYear y = true then false
  else if (m = 4 ∨ m = 6 ∨ m = 9 ∨ m = 11) ∧ 30 < d then false
  else true

/-- `QueryValidator._validate_date_format` (lines 349-370): try the two
absolute date patterns; a dashed match additionally runs the calendar
checks, a slash match is accepted as-is (the `'-' in date_str` guard on
line 354 is false for it). -/
def validate_date_format (s : String) : Bool :=
  if dateDashShape s then
    validDashDate (parseDashDate s).1 (parseDashDate s).2.1 (parseDashDate s).2.2
  else if dateSlashShape s then true
  else false

/-- `QueryValidator._validate_relative_date` (lines 372-374): full match
of `\d+[dmy]` — one or more digits then one of the three units. -/
def validate_relative_date (s : String) : Bool :=
  decide (2 ≤ s.data.length) && s.data.dropLast.all (·.isDigit) &&
    (s.data.getLast? == some 'd' || s.data.getLast? == some 'm' ||
     s.data.getLast? == some 'y')

/-- `QueryValidator._validate_size_format` (lines 376-378): full match
of `\d+[KMGB]*` case-insensitively. -/
def validate_size_format (s : String) : Bool :=
  !(s.data.takeWhile (·.isDigit)).isEmpty &&
    (s.data.dropWhile (·.isDigit)).all
      (fun c => c ∈ ['K', 'M', 'G', 'B', 'k', 'm', 'g', 'b'])

/-- `QueryValidator._validate_operator` (lines 313-347): dispatch on the
operator, returning `some errorMessage` exactly when the source returns
an error string and `none` when it returns `None`. -/
def validate_operator (op v : String) : Option String :=
  if ¬ op ∈ SUPPORTED_OPERATORS then some ("Unsupported operator: " ++ op)
  else if op = "has:" then
    if ¬ v ∈ VALID_HAS_VALUES then some ("Invalid value for has: operator: " ++ v) else none
  else if op = "is:" then
    if ¬ v ∈ VALID_IS_VALUES then some ("Invalid value for is: operator: " ++ v) else none
  else if op = "in:" then
    if ¬ v ∈ VALID_IN_VALUES then some ("Invalid value for in: operator: " ++ v) else none
  else if op = "after:" ∨ op = "before:" then
    if ¬ validate_date_format v = true then
      some ("Invalid date format for " ++ op ++ " operator: " ++ v) else none
  else if op = "older_than:" ∨ op = "newer_than:" then
    if ¬ validate_relative_date v = true then
      some ("Invalid relative date format for " ++ op ++ " operator: " ++ v) else none
  else if op = "size:" ∨ op = "larger:" ∨ op = "smaller:" then
    if ¬ validate_size_format v = true then
      some ("Invalid size format for " ++ op ++ " operator: " ++ v) else none
  else none

/-- Render `y-m-d` as a zero-padded `YYYY-MM-DD` string (the shape the
dashed date pattern matches), for stating calendar properties over all
numeric dates. -/
def mkDateStr (y m d : Nat) : String :=
  ⟨[Nat.digitChar (y / 1000 % 10), Nat.digitChar (y / 100 % 10),
    Nat.digitChar (y / 10 % 10), Nat.digitChar (y % 10), '-',
    Nat.digitChar (m / 10 % 10), Nat.digitChar (m % 10), '-',
    Nat.digitChar (d / 10 % 10), Nat.digitChar (d % 10)]⟩

/-- Render `y/m/d` as a zero-padded `YYYY/MM/DD` string (the shape the
slash date pattern matches). -/
def mkSlashDateStr (y m d : Nat) : String :=
  ⟨[Nat.digitChar (y / 1000 % 10), Nat.digitChar (y / 100 % 10),
    Nat.digitChar (y / 10 % 10), Nat.digitChar (y % 10), '/',
    Nat.digitChar (m / 10 % 10), Nat.digitChar (m % 10), '/',
    Nat.digitChar (d / 10 % 10), Nat.digitChar (d % 10)]⟩

theorem digitChar_isDigit (k : Nat) (h : k < 10) :
    (Nat.digitChar k).isDigit = true := by
  interval_cases k <;> decide

theorem dval_digitChar (k : Nat) (h : k < 10) :
    dval (Nat.digitChar k) = k := by
  interval_cases k <;> decide

theorem dateDashShape_mkDateStr (y m d : Nat) :
    dateDashShape (mkDateStr y m d) = true := by
  simp only [dateDashShape, mkDateStr]
  simp [digitChar_isDigit _ (Nat.mod_lt _ (by norm_num))]

theorem parseDashDate_mkDateStr (y m d : Nat)
    (hy : y < 10000) (hm : m < 100) (hd : d < 100) :
    parseDashDate (mkDateStr y m d) = (y, m, d) := by
  simp only [parseDashDate, mkDateStr,
    dval_digitChar _ (Nat.mod_lt _ (by norm_num)), Prod.mk.injEq]
  refine ⟨by omega, by omega, by omega⟩

theorem validDashDate_iff (y m d : Nat) :
    validDashDate y m d = true ↔
      (1 ≤ m ∧ m ≤ 12 ∧ 1 ≤ d ∧ d ≤ 31 ∧ ¬ (m = 2 ∧ 30 ≤ d) ∧
       (m = 2 ∧ d = 29 → isLeapYear y = true) ∧
       ¬ ((m = 4 ∨ m = 6 ∨ m = 9 ∨ m = 11) ∧ d = 31)) := by
  unfold validDashDate
  split_ifs with h1 h2 h3 h4 <;>
    simp_all <;> omega

theorem dateSlashShape_mkSlashDateStr (y m d : Nat) :
    dateSlashShape (mkSlashDateStr y m d) = true := by
  simp only [dateSlashShape, mkSlashDateStr]
  simp [digitChar_isDigit _ (Nat.mod_lt _ (by norm_num))]

theorem dateDashShape_mkSlashDateStr (y m d : Nat) :
    dateDashShape (mkSlashDateStr y m d) = false := by
  have h : ('/' == '-') = false := by decide
  simp [dateDashShape, mkSlashDateStr, h]

end QueryVal

open QueryVal in
/-- C5 counterexample.  The claim says the validator rejects any
`after:`/`before:` date with a month outside 1-12 or a day outside
1-31; but the calendar checks only run for the dashed format (the
`'-' in date_str` guard on line 354), so the slash-format
`after:2024/13/45` — month 13, day 45 — is accepted. -/
theorem claim_C5_counterexample :
    validate_operator "after:" "2024/13/45" = none
    ∧ validate_date_format "2024/13/45" = true
    ∧ validate_date_format "2024-13-45" = false := by
  refine ⟨by decide, by decide, by decide⟩

open QueryVal in
/-- C5 amended.  For the dashed `YYYY-MM-DD` format the validator
rejects `after:2024-13-01`, `after:2024-02-30`, and the non-leap-year
`after:2023-02-29`, accepts the leap-year `after:2024-02-29`, and in
general accepts a dashed value exactly when the month is 1-12, the day
1-31, not February 30/31, February 29 only in a leap year, and not
day 31 of a 30-day month; a slash `YYYY/MM/DD` value of the right
shape is accepted without any calendar check. -/
theorem claim_C5_amended :
    validate_operator "after:" "2024-13-01" ≠ none
    ∧ validate_operator "after:" "2024-02-30" ≠ none
    ∧ validate_operator "after:" "2023-02-29" ≠ none
    ∧ validate_operator "after:" "2024-02-29" = none
    ∧ (∀ y m d : Nat, y < 10000 → m < 100 → d < 100 →
        (validate_date_format (mkDateStr y m d) = true ↔
          (1 ≤ m ∧ m ≤ 12 ∧ 1 ≤ d ∧ d ≤ 31 ∧ ¬ (m = 2 ∧ 30 ≤ d) ∧
           (m = 2 ∧ d = 29 → isLeapYear y = true) ∧
           ¬ ((m = 4 ∨ m = 6 ∨ m = 9 ∨ m = 11) ∧ d = 31))))
    ∧ ∀ y m d : Nat,
        validate_date_format (mkSlashDateStr y m d) = true := by
  refine ⟨by decide, by decide, by decide, by decide, ?_, ?_⟩
  · intro y m d hy hm hd
    rw [show validate_date_format (mkDateStr y m d)
          = validDashDate y m d by
        unfold validate_date_format
        rw [dateDashShape_mkDateStr, parseDashDate_mkDateStr y m d hy hm hd]
        simp]
    exact validDashDate_iff y m d
  · intro y m d
    unfold validate_date_format
    rw [dateDashShape_mkSlashDateStr, dateSlashShape_mkSlashDateStr]
    simp

open QueryVal in
/-- Witness for the amended C5 at the leap-year date 2024-02-29. -/
theorem claim_C5_amended_witness :
    QueryVal.validate_date_format (QueryVal.mkDateStr 2024 2 29) = true :=
  (claim_C5_amended.2.2.2.2.1 2024 2 29 (by decide) (by decide) (by decide)).mpr
    (by decide)

namespace QueryVal

/-- The relative-date rule as the specification words it (one or two
digits followed by d, m, or y); written only to compare the spec
sentence against the source validator `validate_relative_date`. -/
def specRelativeDateShape (s : String) : Bool :=
  match s.data with
  | [a, u] => a.isDigit && (u == 'd' || u == 'm' || u == 'y')
  | [a, b, u] => a.isDigit && b.isDigit && (u == 'd' || u == 'm' || u == 'y')
  | _ => false

end QueryVal

open QueryVal in
/-- C7 counterexample.  The claim says a three-digit value such as
`100d` is rejected; the source regex `\d+[dmy]` accepts any number of
digits, so `_validate_relative_date` (and hence the `older_than:`
operator check) accepts `100d`, which the spec shape rejects. -/
theorem claim_C7_counterexample :
    validate_relative_date "100d" = true
    ∧ specRelativeDateShape "100d" = false
    ∧ validate_operator "older_than:" "100d" = none := by
  refine ⟨by decide, by decide, by decide⟩

open QueryVal in
/-- C7 amended.  The validator accepts an `older_than:`/`newer_than:`
value exactly when it is one or MORE digits followed by one of d, m,
or y (so `100d` is accepted and the week unit `w` is rejected), and
the operator check passes exactly when the relative-date check does. -/
theorem claim_C7_amended :
    (∀ s : String,
      (validate_relative_date s = true ↔
        ∃ ds u, s.data = ds ++ [u] ∧ ds ≠ [] ∧
          (∀ c ∈ ds, c.isDigit = true) ∧ (u = 'd' ∨ u = 'm' ∨ u = 'y'))
      ∧ (validate_operator "older_than:" s = none ↔ validate_relative_date s = true)
      ∧ (validate_operator "newer_than:" s = none ↔ validate_relative_date s = true))
    ∧ validate_relative_date "100d" = true
    ∧ validate_relative_date "7w" = false
    ∧ validate_relative_date "7d" = true
    ∧ validate_relative_date "30d" = true := by
  refine ⟨?_, by decide, by decide, by decide, by decide⟩
  intro s
  refine ⟨?_, ?_, ?_⟩
  · unfold validate_relative_date
    constructor
    · intro h
      simp only [Bool.and_eq_true, Bool.or_eq_true, decide_eq_true_eq,
        List.all_eq_true, beq_iff_eq] at h
      obtain ⟨⟨hlen, hdig⟩, hlast⟩ := h
      have hne : s.data ≠ [] := by
        intro hnil; rw [hnil] at hlen; simp at hlen
      refine ⟨s.data.dropLast, s.data.getLast hne, ?_, ?_, ?_, ?_⟩
      · exact (List.dropLast_concat_getLast hne).symm
      · intro hnil
        have h2 := congrArg List.length hnil
        rw [List.length_dropLast] at h2
        simp only [List.length_nil] at h2
        omega
      · exact hdig
      · have hsome : s.data.getLast? = some (s.data.getLast hne) :=
          List.getLast?_eq_getLast s.data hne
        rcases hlast with (h | h) | h
        · exact Or.inl (Option.some.inj (hsome.symm.trans h))
        · exact Or.inr (Or.inl (Option.some.inj (hsome.symm.trans h)))
        · exact Or.inr (Or.inr (Option.some.inj (hsome.symm.trans h)))
    · rintro ⟨ds, u, hdata, hne, hdig, hu⟩
      rw [hdata]
      have h1 : 1 ≤ ds.length := List.length_pos.mpr hne
      simp only [Bool.and_eq_true, Bool.or_eq_true, decide_eq_true_eq,
        List.all_eq_true, List.length_append, List.dropLast_concat,
        List.getLast?_concat, beq_iff_eq]
      refine ⟨⟨by simp; omega, hdig⟩, ?_⟩
      rcases hu with h | h | h <;> simp [h]
  · rw [show validate_operator "older_than:" s
        = (if ¬ validate_relative_date s = true then
            some ("Invalid relative date format for older_than: operator: " ++ s)
          else none) from rfl]
    split_ifs with h <;> simp_all
  · rw [show validate_operator "newer_than:" s
        = (if ¬ validate_relative_date s = true then
            some ("Invalid relative date format for newer_than: operator: " ++ s)
          else none) from rfl]
    split_ifs with h <;> simp_all

/-! ## Py: helpers mirroring the Python string operations used below -/

namespace Py

/-- ASCII whitespace as matched by `str.strip()` and the regex `\s`
(the sources only ever produce ASCII whitespace on these paths). -/
def pyIsSpace (c : Char) : Bool :=
  c == ' ' || c == '\t' || c == '\n' || c == '\r' || c == '\x0b' || c == '\x0c'

/-- `str.strip()`: drop leading and trailing whitespace. -/
def pyStrip (s : String) : String :=
  ⟨((s.data.dropWhile pyIsSpace).reverse.dropWhile pyIsSpace).reverse⟩

/-- Does `needle` start the list `hay`? -/
def startsWithList : List Char → List Char → Bool
  | _, [] => true
  | [], _ :: _ => false
  | h :: hs, n :: ns => h == n && startsWithList hs ns

/-- Python `needle in hay` on strings: substring containment. -/
def containsList : List Char → List Char → Bool
  | [], needle => needle.isEmpty
  | h :: hs, needle => startsWithList (h :: hs) needle || containsList hs needle

/-- Python `needle in hay` lifted to `String`. -/
def pyInStr (needle hay : String) : Bool :=
  containsList hay.data needle.data

/-- The regex `re.sub(r'\s+', ' ', s)` on the character list: collapse
every maximal whitespace run into a single space. -/
def collapseWS : List Char → List Char
  | [] => []
  | c :: rest =>
    if pyIsSpace c then ' ' :: collapseWS (rest.dropWhile pyIsSpace)
    else c :: collapseWS rest
termination_by l => l.length
decreasing_by
  · exact Nat.lt_succ_of_le
      (List.Sublist.length_le (List.IsSuffix.sublist (List.dropWhile_suffix pyIsSpace)))
  · simp

/-- Python `s.replace('..', '.')`: left-to-right non-overlapping
replacement of double periods by single ones. -/
def fixDoublePeriods : List Char → List Char
  | [] => []
  | [c] => [c]
  | c1 :: c2 :: rest =>
    if c1 = '.' ∧ c2 = '.' then '.' :: fixDoublePeriods rest
    else c1 :: fixDoublePeriods (c2 :: rest)

theorem collapseWS_ne_nil (l : List Char) (h : l ≠ []) : collapseWS l ≠ [] := by
  match l, h with
  | c :: rest, _ =>
    unfold collapseWS
    split_ifs <;> simp

theorem fixDoublePeriods_ne_nil (l : List Char) (h : l ≠ []) :
    fixDoublePeriods l ≠ [] := by
  match l, h with
  | [c], _ => simp [fixDoublePeriods]
  | c1 :: c2 :: rest, _ =>
    unfold fixDoublePeriods
    split_ifs <;> simp

end Py

/-! ## Summarizer: embedding of `src/summarization/summarizer.py` -/

namespace Summarizer

open Py

/-- `EmailData` (gmail_email/processor.py lines 14-21); the `datetime`
field is carried as its ISO-8601 rendering, so `date.isoformat()` is
the identity here. -/
structure EmailData where
  subject : String
  sender : String
  date : String
  body : String
  message_id : String
deriving DecidableEq

/-- `EmailSummary` (summarizer.py lines 39-48). -/
structure EmailSummary where
  subject : String
  sender : String
  date : String
  key_points : List String
  action_items : List String
  summary : String
  priority : String := "Medium"
deriving DecidableEq

/-- The fixed keyword set of `_create_fallback_summary` (line 445). -/
def action_keywords : List String :=
  ["please", "need", "required", "deadline", "by", "asap", "urgent"]

/-- `EmailSummarizer._create_fallback_summary` (summarizer.py
lines 423-457). -/
def create_fallback_summary (email_data : EmailData) : EmailSummary :=
  let summary := "Email from " ++ email_data.sender ++ " regarding: "
    ++ email_data.subject
  let key_points :=
    if email_data.body ≠ "" then
      (((email_data.body.splitOn ".").take 3).map pyStrip).filter (· ≠ "")
    else []
  let action_items :=
    if action_keywords.any (fun k => pyInStr k email_data.body.toLower) then
      ["Review email content for specific actions needed"]
    else []
  { subject := email_data.subject
    sender := email_data.sender
    date := email_data.date
    key_points := key_points
    action_items := action_items
    summary := summary
    priority := "Medium" }

/-- `EmailSummarizer.batch_summarize_emails` (lines 459-504): iterate in
order; each email yields either the AI summary (when
`summarize_email` returns) or the fallback summary (when it raises —
modelled by `ai` returning `none`); the sleeps between items do not
affect the result. -/
def batch_summarize_emails (ai : EmailData → Option EmailSummary) :
    List EmailData → List EmailSummary
  | [] => []
  | e :: rest =>
    (match ai e with
     | some s => s
     | none => create_fallback_summary e) :: batch_summarize_emails ai rest

end Summarizer

open Summarizer in
/-- C9.  Batch summarization returns a list of exactly the input
length, in order, with each position holding either the AI summary of
the corresponding email or its fallback summary; a per-email failure
never removes an entry or aborts the batch. -/
theorem claim_C9 (ai : EmailData → Option EmailSummary)
    (emails : List EmailData) :
    (batch_summarize_emails ai emails).length = emails.length
    ∧ ∀ (i : Nat) (h : i < emails.length)
        (h2 : i < (batch_summarize_emails ai emails).length),
        (batch_summarize_emails ai emails).get ⟨i, h2⟩
          = match ai (emails.get ⟨i, h⟩) with
            | some s => s
            | none => create_fallback_summary (emails.get ⟨i, h⟩) := by
  induction emails with
  | nil => exact ⟨rfl, fun i h _ => absurd h (by simp)⟩
  | cons e rest ih =>
    refine ⟨?_, ?_⟩
    · simpa [batch_summarize_emails] using ih.1
    · intro i h h2
      match i with
      | 0 => rfl
      | j + 1 =>
        have hj : j < rest.length := by simpa using h
        have hj2 : j < (batch_summarize_emails ai rest).length := by
          rw [ih.1]; exact hj
        exact ih.2 j hj hj2

open Summarizer in
/-- Witness for C9: a two-email batch where every AI call fails keeps
both entries, substituting fallbacks. -/
theorem claim_C9_witness :
    (batch_summarize_emails (fun _ => none)
        [⟨"s1", "a@x", "2025-01-01", "please reply.", "m1"⟩,
         ⟨"s2", "b@x", "2025-01-01", "", "m2"⟩]).length = 2
    ∧ (batch_summarize_emails (fun _ => none)
        [⟨"s1", "a@x", "2025-01-01", "please reply.", "m1"⟩,
         ⟨"s2", "b@x", "2025-01-01", "", "m2"⟩]).get ⟨1, by decide⟩
      = create_fallback_summary ⟨"s2", "b@x", "2025-01-01", "", "m2"⟩ := by
  refine ⟨(claim_C9 (fun _ => none) _).1, ?_⟩
  exact (claim_C9 (fun _ => none)
    [⟨"s1", "a@x", "2025-01-01", "please reply.", "m1"⟩,
     ⟨"s2", "b@x", "2025-01-01", "", "m2"⟩]).2 1 (by decide) (by decide)

/-! ## YamlWriter: embedding of `src/storage/yaml_writer.py`

The filesystem state for one date is modelled as `Option DailyRecord`:
`none` when `{date}.yaml` does not exist, `some r` when it holds the
record `r`.  Timestamps produced by `datetime.now().isoformat()` are
passed in as the `now` argument. -/

namespace YamlWriter

open Summarizer (EmailSummary)

/-- The dictionary produced by `YAMLWriter._summary_to_dict`
(yaml_writer.py lines 366-384). -/
structure EmailDict where
  subject : String
  sender : String
  date : String
  summary : String
  key_points : List String
  action_items : List String
  priority : String
deriving DecidableEq

/-- `YAMLWriter._summary_to_dict` (lines 366-384). -/
def summary_to_dict (s : EmailSummary) : EmailDict :=
  { subject := s.subject
    sender := s.sender
    date := s.date
    summary := s.summary
    key_points := s.key_points
    action_items := s.action_items
    priority := s.priority }

/-- The daily summary record written by the YAML writer (see the shapes
built on lines 181-187 and 215-220 and updated on lines 139-143). -/
structure DailyRecord where
  date : String
  processed_at : String
  email_count : Nat
  emails : List EmailDict
  last_updated : Option String := none
  status : Option String := none
deriving DecidableEq

/-- `YAMLWriter.get_daily_summary_path` (lines 386-399). -/
def get_daily_summary_path (output_directory date : String) : String :=
  output_directory ++ "/" ++ date ++ ".yaml"

/-- `YAMLWriter.append_to_existing_summary` (lines 118-153): extend the
existing `emails` list, recompute `email_count` from the extended list,
stamp `last_updated`. -/
def append_to_existing_summary (existing : DailyRecord)
    (summaries : List EmailSummary) (now : String) : DailyRecord :=
  let newEmails := existing.emails ++ summaries.map summary_to_dict
  { existing with
      emails := newEmails
      email_count := newEmails.length
      last_updated := some now }

/-- `YAMLWriter._create_new_summary_file` (lines 198-225). -/
def create_new_summary_file (summaries : List EmailSummary)
    (date now : String) : DailyRecord :=
  { date := date
    processed_at := now
    email_count := summaries.length
    emails := summaries.map summary_to_dict }

/-- `YAMLWriter.write_daily_summary` (lines 71-116): append when the
file for the date exists, create otherwise.  (The early `strptime`
validation raises before any write for a malformed date, so no record
is produced on that path.) -/
def write_daily_summary (existing : Option DailyRecord)
    (summaries : List EmailSummary) (date now : String) : DailyRecord :=
  match existing with
  | some record => append_to_existing_summary record summaries now
  | none => create_new_summary_file summaries date now

/-- The zero-count structure built by `create_empty_summary_file`
(lines 181-187). -/
def empty_summary_data (date now : String) : DailyRecord :=
  { date := date
    processed_at := now
    email_count := 0
    status := some "No important unread emails found"
    emails := [] }

/-- `YAMLWriter.create_empty_summary_file` (lines 155-196): an existing
record with `email_count > 0` is returned untouched; otherwise the
empty structure is (re)written.  The returned string is the file path,
identical in every branch. -/
def create_empty_summary_file (output_directory : String)
    (existing : Option DailyRecord) (date now : String) :
    DailyRecord × String :=
  let path := get_daily_summary_path output_directory date
  match existing with
  | some record =>
    if record.email_count > 0 then (record, path)
    else (empty_summary_data date now, path)
  | none => (empty_summary_data date now, path)

/-- The returned path is the per-date path in every branch of
`create_empty_summary_file`. -/
theorem create_empty_summary_file_path (output_directory : String)
    (existing : Option DailyRecord) (date now : String) :
    (create_empty_summary_file output_directory existing date now).2
      = get_daily_summary_path output_directory date := by
  cases existing
  · rfl
  · simp only [create_empty_summary_file]
    split_ifs <;> rfl

end YamlWriter

/-! ## Transcript: embedding of `src/summarization/transcript_generator.py` -/

namespace Transcript

open Py

/-- One email dictionary as read back from the daily YAML record and
consumed by `_create_fallback_transcript`; the writer always emits all
seven keys, so the `.get(key, default)` calls in the source see the
stored values. -/
structure EmailEntry where
  subject : String
  sender : String
  summary : String
  key_points : List String
  action_items : List String
  priority : String
deriving DecidableEq

/-- Python `str.lower()` restricted to ASCII letters (every string the
transcript generator lowercases on the verified paths is ASCII). -/
def pyLower (s : String) : String :=
  ⟨s.data.map (fun c => if 'A' ≤ c ∧ c ≤ 'Z' then Char.ofNat (c.toNat + 32) else c)⟩

/-- Python `str.startswith(pre)`. -/
def pyStartsWith (s pre : String) : Bool :=
  startsWithList s.data pre.data

/-- Scan for the first `'>'` with no intervening newline (the `.`
of the non-greedy `<.*?>` does not match a newline); returns the
remainder after it. -/
def findGt : List Char → Option (List Char)
  | [] => none
  | c :: rest =>
    if c = '>' then some rest
    else if c = '\n' then none
    else findGt rest

theorem findGt_length :
    ∀ (l r : List Char), findGt l = some r → r.length < l.length := by
  intro l
  induction l with
  | nil => intro r h; simp [findGt] at h
  | cons c rest ih =>
    intro r h
    unfold findGt at h
    split_ifs at h with h1 h2
    · obtain rfl := Option.some.inj h
      simp
    · exact Nat.lt_trans (ih r h) (by simp)

/-- `re.sub(r'\s*<.*?>', '', sender)` on the character list: at each
position, a (possibly empty) whitespace run followed by `<...>` on one
line is removed; otherwise the character is kept. -/
def stripAngleList : List Char → List Char
  | [] => []
  | c :: rest =>
    match _hdw : (c :: rest).dropWhile pyIsSpace with
    | '<' :: rest3 =>
      match _hgt : findGt rest3 with
      | some rest4 => stripAngleList rest4
      | none => c :: stripAngleList rest
    | _ => c :: stripAngleList rest
termination_by l => l.length
decreasing_by
  · have h1 : rest4.length < rest3.length := findGt_length rest3 rest4 _hgt
    have h2 : ('<' :: rest3).length ≤ (c :: rest).length := by
      rw [← _hdw]
      exact (List.dropWhile_suffix pyIsSpace).sublist.length_le
    simp only [List.length_cons] at h2 ⊢
    omega
  · simp
  · simp

/-- The sender cleanup of lines 351-353: strip the angle-bracketed
address, strip whitespace, substitute a placeholder when empty. -/
def sender_display_name (sender : String) : String :=
  let sn := pyStrip ⟨stripAngleList sender.data⟩
  if sn = "" then "Unknown sender" else sn

/-- The summary cleanup of lines 366-368: newlines to spaces, strip,
ensure a trailing period. -/
def clean_summary_text (summary : String) : String :=
  let cs := pyStrip ⟨summary.data.map (fun ch => if ch = '\n' then ' ' else ch)⟩
  if cs.data.getLast? == some '.' then cs else cs ++ "."

/-- `priority in ['high', 'urgent', 'important']` after lowering
(line 331). -/
def isHighPriority (e : EmailEntry) : Bool :=
  pyLower e.priority ∈ ["high", "urgent", "important"]

/-- `priority in ['low', 'minor']` after lowering (line 333). -/
def isLowPriority (e : EmailEntry) : Bool :=
  pyLower e.priority ∈ ["low", "minor"]

/-- The bucketing of lines 325-344: high-priority emails first (with
label "urgent"), then the medium bucket, then the low bucket; each
bucket keeps the original relative order.  The `elif` chain means an
email only lands in the low bucket when the high test failed. -/
def orderedEmails (summaries : List EmailEntry) : List (EmailEntry × String) :=
  (summaries.filter isHighPriority).map (fun e => (e, "urgent"))
    ++ (summaries.filter
        (fun e => !isHighPriority e && !isLowPriority e)).map (fun e => (e, ""))
    ++ (summaries.filter
        (fun e => !isHighPriority e && isLowPriority e)).map (fun e => (e, ""))

/-- The varied introduction of lines 356-363, keyed by the running
1-based counter, the total email count, and the bucket label. -/
def emailIntro (emailCount counter : Nat) (priorityLabel : String) : String :=
  if counter = 1 then "First up,"
  else if counter = emailCount then "Finally,"
  else if priorityLabel = "urgent" then "Importantly,"
  else "Next,"

/-- One email section (line 370). -/
def emailSection (emailCount counter : Nat) (label : String)
    (e : EmailEntry) : String :=
  emailIntro emailCount counter label ++ " you have an email from "
    ++ sender_display_name e.sender ++ " about " ++ e.subject ++ ". "
    ++ clean_summary_text e.summary

/-- The per-email loop of lines 339-372 over the bucketed list,
incrementing the counter. -/
def emailSections (emailCount : Nat) :
    Nat → List (EmailEntry × String) → List String
  | _, [] => []
  | counter, (e, label) :: rest =>
    emailSection emailCount counter label e
      :: emailSections emailCount (counter + 1) rest

/-- Lines 375-379: collect every email's action items, iterating the
summaries in their original input order. -/
def collectActionItems (summaries : List EmailEntry) : List String :=
  (summaries.map (fun e => e.action_items)).flatten

/-- Lines 388-391: take the first five items; each stripped item that
is non-empty and does not already start with `-` becomes its own
`- `-prefixed part; the rest contribute nothing. -/
def renderedActionLines (allActionItems : List String) : List String :=
  (allActionItems.take 5).filterMap fun item =>
    let cleanItem := pyStrip item
    if cleanItem ≠ "" ∧ pyStartsWith cleanItem "-" = false then
      some ("- " ++ cleanItem)
    else none

/-- The action-item recap block of lines 381-391. -/
def actionRecap (allActionItems : List String) : List String :=
  if allActionItems.isEmpty then []
  else if allActionItems.length = 1 then
    ["Before you go, there\x27s one action item that needs your attention:",
     allActionItems.headD ""]
  else
    "To wrap up, here are the main action items for your attention:"
      :: renderedActionLines allActionItems

/-- The closing of lines 393-399. -/
def closingLine (emailCount : Nat) (allActionItems : List String) : String :=
  if emailCount = 1 then
    "That\x27s your single important email for today. Have a great day!"
  else if !allActionItems.isEmpty then
    "That concludes your email briefing. Stay productive!"
  else
    "That\x27s all for today\x27s email briefing. Have a wonderful day!"

/-- The `transcript_parts` list assembled by
`_create_fallback_transcript` for a non-empty day (lines 303-399);
`formattedDate` is the `strftime('%B %d, %Y')` rendering computed on
lines 296-301. -/
def fallback_transcript_parts (summaries : List EmailEntry)
    (formattedDate : String) : List String :=
  let emailCount := summaries.length
  let greet := "Good morning! Here\x27s your email briefing for "
    ++ formattedDate ++ "."
  let opening :=
    if emailCount = 1 then
      [greet, "I found one important email that needs your attention today."]
    else if emailCount ≤ 3 then
      [greet, "I processed " ++ toString emailCount
        ++ " important emails for you today."]
    else
      [greet, "It\x27s been a busy day with " ++ toString emailCount
        ++ " important emails to review."]
  let walkLine :=
    if emailCount = 1 then "Here\x27s what you need to know:"
    else "Let me walk you through the key highlights:"
  let allActionItems := collectActionItems summaries
  opening ++ [walkLine]
    ++ emailSections emailCount 1 (orderedEmails summaries)
    ++ actionRecap allActionItems
    ++ [closingLine emailCount allActionItems]

/-- Python `' '.join(parts)`. -/
def joinSpace : List String → String
  | [] => ""
  | [p] => p
  | p :: q :: rest => p ++ " " ++ joinSpace (q :: rest)

/-- The final cleanup of lines 405-406: collapse whitespace runs, then
replace double periods. -/
def finalSpeechCleanup (s : String) : String :=
  ⟨fixDoublePeriods (collapseWS s.data)⟩

/-- `_create_empty_day_transcript` (lines 416-462); `formattedDate` and
`dayOfWeek` are the `strftime` renderings of the parsed date. -/
def create_empty_day_transcript (formattedDate dayOfWeek : String) : String :=
  if pyLower dayOfWeek = "monday" then
    "Good morning! Here\x27s your email briefing for " ++ formattedDate
      ++ ". What a great way to start the week - there were no important emails that required your attention today. This gives you a clear slate to focus on your weekly priorities. I\x27ll continue monitoring your inbox throughout the day. Have a productive Monday!"
  else if pyLower dayOfWeek = "friday" then
    "Good morning! Here\x27s your email briefing for " ++ formattedDate
      ++ ". Perfect timing for a Friday - there were no important emails that needed your attention today. This gives you more time to wrap up the week and prepare for the weekend. I\x27ll keep watching your inbox in case anything urgent comes in. Have a fantastic Friday!"
  else if pyLower dayOfWeek = "saturday" ∨ pyLower dayOfWeek = "sunday" then
    "Good morning! Here\x27s your email briefing for " ++ formattedDate
      ++ ". Enjoy your weekend - there were no important emails that required your attention today. This is the perfect time to relax and recharge. I\x27ll continue monitoring your inbox and will alert you if anything urgent arrives. Have a wonderful weekend!"
  else
    "Good morning! Here\x27s your email briefing for " ++ formattedDate
      ++ ". Great news - there were no important emails that required your attention today. This gives you more time to focus on your other priorities and projects. I\x27ll continue monitoring your inbox and will let you know when something important comes in. Have a wonderful day!"

/-- `_create_fallback_transcript` (lines 279-414) with no exception on
the rendering path: empty input delegates to the empty-day script, a
non-empty day joins the assembled parts and applies the final
cleanup. -/
def create_fallback_transcript (summaries : List EmailEntry)
    (formattedDate dayOfWeek : String) : String :=
  if summaries.isEmpty then create_empty_day_transcript formattedDate dayOfWeek
  else finalSpeechCleanup (joinSpace (fallback_transcript_parts summaries formattedDate))

/-- `_create_minimal_fallback_transcript` (lines 464-489). -/
def create_minimal_fallback_transcript (formattedDate : String)
    (email_count : Nat) : String :=
  if email_count = 0 then
    "Good morning! Your email briefing for " ++ formattedDate
      ++ " shows no important emails today. Have a great day!"
  else if email_count = 1 then
    "Good morning! Your email briefing for " ++ formattedDate
      ++ " shows one important email to review. Please check your email for details. Have a great day!"
  else
    "Good morning! Your email briefing for " ++ formattedDate
      ++ " shows " ++ toString email_count
      ++ " important emails to review. Please check your email for details. Have a great day!"

/-- `generate_transcript` (lines 48-111) in the scenario where every AI
call fails (or no AI client exists): a loaded record with no emails
yields the empty-day script directly (line 79); otherwise the AI path
raises and the flow falls back to the deterministic template
(lines 94-101). -/
def generate_transcript_ai_failed (summaries : List EmailEntry)
    (formattedDate dayOfWeek : String) : String :=
  if summaries.isEmpty then create_empty_day_transcript formattedDate dayOfWeek
  else create_fallback_transcript summaries formattedDate dayOfWeek

/-- Appending on the right never shrinks a string below the left
length. -/
theorem length_append_pos_left (a b : String) (h : 0 < a.length) :
    0 < (a ++ b).length := by
  rw [String.length_append]; omega

/-- `joinSpace` keeps at least the head string. -/
theorem joinSpace_length_left (p : String) (rest : List String) :
    p.length ≤ (joinSpace (p :: rest)).length := by
  cases rest with
  | nil => simp [joinSpace]
  | cons q r =>
    simp only [joinSpace, String.length_append]
    omega

/-- The final speech cleanup never empties a non-empty transcript. -/
theorem finalSpeechCleanup_length_pos (s : String) (h : 0 < s.length) :
    0 < (finalSpeechCleanup s).length := by
  have hz : s.data ≠ [] := by
    intro hd
    rw [show s.length = s.data.length from rfl, hd] at h
    simp at h
  have h1 := Py.collapseWS_ne_nil s.data hz
  have h2 := Py.fixDoublePeriods_ne_nil _ h1
  show 0 < (Py.fixDoublePeriods (Py.collapseWS s.data)).length
  exact List.length_pos.mpr h2

/-- Every empty-day variant is non-empty. -/
theorem create_empty_day_transcript_length_pos (fd dow : String) :
    0 < (create_empty_day_transcript fd dow).length := by
  have h0 : 0 < ("Good morning! Here\x27s your email briefing for " : String).length := by
    decide
  unfold create_empty_day_transcript
  split_ifs <;> simp only [String.length_append] <;> omega

/-- The assembled parts always start with the greeting line. -/
theorem fallback_parts_head (summaries : List EmailEntry) (fd : String) :
    ∃ rest, fallback_transcript_parts summaries fd
      = ("Good morning! Here\x27s your email briefing for " ++ fd ++ ".") :: rest := by
  simp only [fallback_transcript_parts]
  split_ifs <;> exact ⟨_, rfl⟩

end Transcript

open Transcript in
/-- C3.  In the scenario where every AI call fails, `generate_transcript`
returns non-empty text for any loaded day record (0, 1 or more emails),
and the minimal last-resort template is non-empty for every email
count. -/
theorem claim_C3 (summaries : List EmailEntry)
    (formattedDate dayOfWeek : String) (email_count : Nat) :
    0 < (generate_transcript_ai_failed summaries formattedDate dayOfWeek).length
    ∧ 0 < (create_minimal_fallback_transcript formattedDate email_count).length := by
  constructor
  · unfold generate_transcript_ai_failed create_fallback_transcript
    by_cases h : summaries.isEmpty = true
    · simp only [h, if_pos]
      exact create_empty_day_transcript_length_pos formattedDate dayOfWeek
    · simp only [h, if_neg, Bool.false_eq_true, not_false_eq_true]
      apply finalSpeechCleanup_length_pos
      obtain ⟨rest, hp⟩ := fallback_parts_head summaries formattedDate
      rw [hp]
      have hj := joinSpace_length_left
        ("Good morning! Here\x27s your email briefing for " ++ formattedDate ++ ".")
        rest
      have hg : 0 < ("Good morning! Here\x27s your email briefing for "
          ++ formattedDate ++ ".").length :=
        length_append_pos_left _ _ (length_append_pos_left _ _ (by decide))
      omega
  · have h0 : 0 < ("Good morning! Your email briefing for " : String).length := by
      decide
    unfold create_minimal_fallback_transcript
    split_ifs <;> simp only [String.length_append] <;> omega

/-- A concrete day for C8: a low-priority email listed first carrying
six action items (the first already dash-prefixed), then a
high-priority email carrying four — ten action items in total. -/
def ex8 : List Transcript.EmailEntry :=
  [{ subject := "planning", sender := "low@example.com",
     summary := "low priority email", key_points := [],
     action_items := ["- already dashed", "send x1", "send x2",
       "send x3", "send x4", "send x5"],
     priority := "Low" },
   { subject := "launch", sender := "high@example.com",
     summary := "high priority email", key_points := [],
     action_items := ["do h1", "do h2", "do h3", "do h4"],
     priority := "High" }]

open Transcript in
/-- C8 counterexample.  `ex8` carries 10 action items, yet only 4 lines
are rendered (the dash-prefixed item among the first five is dropped,
not rendered); moreover the rendered items come from the low-priority
email that is first in input order, while the bucket emission order
puts the high-priority email first — so neither "exactly 5 lines" nor
"collected in bucket-emission order" holds. -/
theorem claim_C8_counterexample :
    (collectActionItems ex8).length = 10
    ∧ renderedActionLines (collectActionItems ex8)
        = ["- send x1", "- send x2", "- send x3", "- send x4"]
    ∧ (renderedActionLines (collectActionItems ex8)).length ≠ 5
    ∧ (orderedEmails ex8).map (fun p => p.1.subject) = ["launch", "planning"] := by
  refine ⟨by decide, by decide, by decide, by decide⟩

open Transcript in
/-- C8 amended.  The recap renders at most the first 5 action items in
the emails' original input order: each of those whose stripped text is
non-empty and does not already start with a dash becomes its own
`- `-prefixed part (the others are dropped); with at least two items
the parts list contains the plural lead-in followed by exactly these
lines; and when the first five items are all clean, exactly 5 lines
are rendered. -/
theorem claim_C8_amended (summaries : List EmailEntry) (formattedDate : String) :
    (renderedActionLines (collectActionItems summaries)).length ≤ 5
    ∧ (∀ line ∈ renderedActionLines (collectActionItems summaries),
        ∃ item ∈ (collectActionItems summaries).take 5,
          line = "- " ++ Py.pyStrip item)
    ∧ (2 ≤ (collectActionItems summaries).length →
        ∃ pre, fallback_transcript_parts summaries formattedDate
          = pre ++ ("To wrap up, here are the main action items for your attention:"
                :: renderedActionLines (collectActionItems summaries))
            ++ [closingLine summaries.length (collectActionItems summaries)])
    ∧ (5 ≤ (collectActionItems summaries).length →
        (∀ item ∈ (collectActionItems summaries).take 5,
          Py.pyStrip item ≠ "" ∧ pyStartsWith (Py.pyStrip item) "-" = false) →
        renderedActionLines (collectActionItems summaries)
            = ((collectActionItems summaries).take 5).map
                (fun item => "- " ++ Py.pyStrip item)
        ∧ (renderedActionLines (collectActionItems summaries)).length = 5) := by
  refine ⟨?_, ?_, ?_, ?_⟩
  · exact le_trans (List.length_filterMap_le _ _) (List.length_take_le 5 _)
  · intro line hline
    simp only [renderedActionLines, List.mem_filterMap] at hline
    obtain ⟨item, hitem, hf⟩ := hline
    split_ifs at hf with hcond
    exact ⟨item, hitem, (Option.some.inj hf).symm⟩
  · intro h2
    have hne : (collectActionItems summaries).isEmpty ≠ true := by
      intro hempty
      rw [List.isEmpty_iff] at hempty
      rw [hempty] at h2
      simp at h2
    have hr : actionRecap (collectActionItems summaries)
        = "To wrap up, here are the main action items for your attention:"
          :: renderedActionLines (collectActionItems summaries) := by
      unfold actionRecap
      rw [if_neg hne, if_neg (by omega)]
    simp only [fallback_transcript_parts]
    rw [hr]
    exact ⟨_, rfl⟩
  · intro h5 hclean
    have hmap : ∀ l : List String,
        (∀ item ∈ l, Py.pyStrip item ≠ "" ∧ pyStartsWith (Py.pyStrip item) "-" = false) →
        l.filterMap (fun item =>
          let cleanItem := Py.pyStrip item
          if cleanItem ≠ "" ∧ pyStartsWith cleanItem "-" = false then
            some ("- " ++ cleanItem)
          else none)
          = l.map (fun item => "- " ++ Py.pyStrip item) := by
      intro l hl
      induction l with
      | nil => rfl
      | cons a t ih =>
        have ha := hl a (by simp)
        have hfa : (if Py.pyStrip a ≠ "" ∧ pyStartsWith (Py.pyStrip a) "-" = false then
            some ("- " ++ Py.pyStrip a) else none) = some ("- " ++ Py.pyStrip a) :=
          if_pos ⟨ha.1, ha.2⟩
        simp only [List.filterMap_cons, List.map_cons, hfa]
        rw [ih (fun item hmem => hl item (by simp [hmem]))]
    constructor
    · exact hmap _ hclean
    · rw [renderedActionLines, hmap _ hclean, List.length_map, List.length_take]
      omega

/-- A concrete clean 10-item day for the amended C8. -/
def exW : List Transcript.EmailEntry :=
  [{ subject := "a", sender := "p@x", summary := "s", key_points := [],
     action_items := ["t1", "t2", "t3", "t4", "t5", "t6"], priority := "Medium" },
   { subject := "b", sender := "q@x", summary := "s2", key_points := [],
     action_items := ["t7", "t8", "t9", "t10"], priority := "Low" }]

/-! ## Settings: embedding of `src/config/settings.py` -/

namespace Settings

/-- The `Config` dataclass (settings.py lines 21-45) after
`_load_from_environment`.  Python ints parsed from the environment can
be negative, so the numeric fields are `Int`; `temperature` is a
`Rat`.  The four search-related fields (`search_configs_file`,
`default_search_query`, `enable_search_validation`,
`max_search_results`) are exercised by the repository tests
(src/test_config_search_settings.py) and specified in §4.2 but absent
from the `Config` in src/config/settings.py; they are carried here so
the spec-modelled checks below can be stated. -/
structure Config where
  credentials_file : String := "credentials.json"
  token_file : String := "token.json"
  output_directory : String := "email_summaries"
  max_emails_per_run : Int := 5
  ai_provider : String := "openai"
  openai_api_key : String := ""
  openai_model : String := "gpt-3.5-turbo"
  claude_api_key : String := ""
  claude_model : String := "claude-3-haiku-20240307"
  max_tokens : Int := 500
  temperature : Rat := 3 / 10
  search_configs_file : String := "search_configs.json"
  default_search_query : String := "is:unread is:important"
  enable_search_validation : Bool := true
  max_search_results : Int := 100

/-- `Config._validate_configuration` (settings.py lines 67-98): the
first violated check raises `ValueError` with the given message;
construction succeeds only when every check passes. -/
def validate_configuration (c : Config) : Except String Unit :=
  if c.ai_provider ≠ "openai" ∧ c.ai_provider ≠ "claude" then
    .error ("Invalid AI provider: " ++ c.ai_provider
      ++ ". Must be \x27openai\x27 or \x27claude\x27")
  else if c.ai_provider = "openai" ∧ c.openai_api_key = "" then
    .error "OpenAI API key is required when using OpenAI provider. Set OPENAI_API_KEY environment variable."
  else if c.ai_provider = "claude" ∧ c.claude_api_key = "" then
    .error "Claude API key is required when using Claude provider. Set CLAUDE_API_KEY environment variable."
  else if c.max_emails_per_run ≤ 0 then
    .error "max_emails_per_run must be greater than 0"
  else if c.max_tokens ≤ 0 then
    .error "max_tokens must be greater than 0"
  else if ¬ (0 ≤ c.temperature ∧ c.temperature ≤ 2) then
    .error "temperature must be between 0.0 and 2.0"
  else if c.credentials_file = "" then
    .error "credentials_file cannot be empty"
  else if c.token_file = "" then
    .error "token_file cannot be empty"
  else if c.output_directory = "" then
    .error "output_directory cannot be empty"
  else .ok ()

/-- Modelled from the spec: the search-settings validation
(`max_search_results` > 0, non-empty `search_configs_file` and
`default_search_query`) described in §4.2 and asserted by
src/test_config_search_settings.py is missing from
src/config/settings.py; the messages are the ones the tests match. -/
def validate_search_settings (c : Config) : Except String Unit :=
  if c.max_search_results ≤ 0 then
    .error "max_search_results must be greater than 0"
  else if c.search_configs_file = "" then
    .error "search_configs_file cannot be empty"
  else if c.default_search_query = "" then
    .error "default_search_query cannot be empty"
  else .ok ()

theorem validate_configuration_ok_iff (c : Config) :
    validate_configuration c = .ok () ↔
      ((c.ai_provider = "openai" ∨ c.ai_provider = "claude")
       ∧ (c.ai_provider = "openai" → c.openai_api_key ≠ "")
       ∧ (c.ai_provider = "claude" → c.claude_api_key ≠ "")
       ∧ 0 < c.max_emails_per_run ∧ 0 < c.max_tokens
       ∧ 0 ≤ c.temperature ∧ c.temperature ≤ 2
       ∧ c.credentials_file ≠ "" ∧ c.token_file ≠ ""
       ∧ c.output_directory ≠ "") := by
  constructor
  · intro h
    unfold validate_configuration at h
    split_ifs at h with h1 h2 h3 h4 h5 h6 h7 h8 h9
    push_neg at h6
    exact ⟨by tauto, by tauto, by tauto, by omega, by omega,
      h6.1, h6.2, h7, h8, h9⟩
  · rintro ⟨hp, hok, hck, he, ht, ht0, ht2, hcred, htok, hout⟩
    unfold validate_configuration
    rw [if_neg (by tauto), if_neg (by tauto), if_neg (by tauto),
      if_neg (by omega), if_neg (by omega), if_neg (by tauto),
      if_neg hcred, if_neg htok, if_neg hout]

theorem validate_search_settings_ok_iff (c : Config) :
    validate_search_settings c = .ok () ↔
      (0 < c.max_search_results ∧ c.search_configs_file ≠ ""
       ∧ c.default_search_query ≠ "") := by
  constructor
  · intro h
    unfold validate_search_settings at h
    split_ifs at h with h1 h2 h3
    exact ⟨by omega, h2, h3⟩
  · rintro ⟨h1, h2, h3⟩
    unfold validate_search_settings
    rw [if_neg (by omega), if_neg h2, if_neg h3]

end Settings

open Settings in
/-- C6.  Configuration construction succeeds exactly when the provider
is `openai` or `claude` with the matching key non-empty, the three
numeric caps are positive, the temperature lies in [0, 2], and none of
the five path or query settings is empty; any violation produces a
non-empty descriptive error message. -/
theorem claim_C6 (c : Config) :
    ((validate_configuration c = .ok () ∧ validate_search_settings c = .ok ()) ↔
      ((c.ai_provider = "openai" ∨ c.ai_provider = "claude")
       ∧ (c.ai_provider = "openai" → c.openai_api_key ≠ "")
       ∧ (c.ai_provider = "claude" → c.claude_api_key ≠ "")
       ∧ 0 < c.max_emails_per_run ∧ 0 < c.max_tokens ∧ 0 < c.max_search_results
       ∧ 0 ≤ c.temperature ∧ c.temperature ≤ 2
       ∧ c.credentials_file ≠ "" ∧ c.token_file ≠ ""
       ∧ c.output_directory ≠ "" ∧ c.search_configs_file ≠ ""
       ∧ c.default_search_query ≠ ""))
    ∧ ∀ e : String,
        validate_configuration c = .error e ∨ validate_search_settings c = .error e →
        0 < e.length := by
  constructor
  · rw [validate_configuration_ok_iff, validate_search_settings_ok_iff]
    tauto
  · intro e he
    rcases he with h | h
    · unfold validate_configuration at h
      split_ifs at h
      all_goals first
        | exact Except.noConfusion h
        | { have h2 := Except.error.inj h; subst h2; decide }
        | { have h2 := Except.error.inj h
            subst h2
            exact Transcript.length_append_pos_left _ _
              (Transcript.length_append_pos_left _ _ (by decide)) }
    · unfold validate_search_settings at h
      split_ifs at h
      all_goals first
        | exact Except.noConfusion h
        | { have h2 := Except.error.inj h; subst h2; decide }

/-! ## SearchStore: embedding of `SearchConfigManager` (search_configs.py) -/

namespace SearchStore

/-- `SearchConfig` (search_configs.py lines 85-102); the `datetime`
fields are carried as their ISO-8601 renderings, so `isoformat()` is
the identity and `to_dict` below copies them. -/
structure SearchConfig where
  name : String
  query : String
  description : String
  created_at : String
  last_used : Option String := none
  usage_count : Nat := 0
deriving DecidableEq

/-- The dictionary form produced by `SearchConfig.to_dict`
(lines 104-118) and stored under `config_data["configs"][name]`. -/
structure StoredConfig where
  name : String
  query : String
  description : String
  created_at : String
  last_used : Option String
  usage_count : Nat
deriving DecidableEq

/-- `SearchConfig.to_dict` (lines 104-118). -/
def to_dict (c : SearchConfig) : StoredConfig :=
  { name := c.name
    query := c.query
    description := c.description
    created_at := c.created_at
    last_used := c.last_used
    usage_count := c.usage_count }

/-- The `configs` mapping of the JSON file, as an insertion-ordered
association list with unique keys (a Python dict). -/
def lookup (name : String) : List (String × StoredConfig) → Option StoredConfig
  | [] => none
  | (k, v) :: rest => if k = name then some v else lookup name rest

/-- Python dict assignment `configs[name] = v`: replace in place, or
append when absent. -/
def setEntry (name : String) (v : StoredConfig) :
    List (String × StoredConfig) → List (String × StoredConfig)
  | [] => [(name, v)]
  | (k, w) :: rest =>
    if k = name then (name, v) :: rest else (k, w) :: setEntry name v rest

theorem lookup_setEntry (name : String) (v : StoredConfig)
    (l : List (String × StoredConfig)) :
    lookup name (setEntry name v l) = some v := by
  induction l with
  | nil => simp [setEntry, lookup]
  | cons kv rest ih =>
    obtain ⟨k, w⟩ := kv
    by_cases hk : k = name
    · simp [setEntry, hk, lookup]
    · simp [setEntry, hk, lookup, ih]

/-- `SearchConfigManager.update_config` (lines 655-699).  `qvalid`
stands for the injected `QueryValidator.validate_query` (its operator
checks are embedded in the QueryVal section); its verdict only gates
the `QueryValidationError` path.  Returns the found flag and the new
`configs` mapping. -/
def update_config (qvalid : String → Bool)
    (configs : List (String × StoredConfig)) (name : String)
    (config : SearchConfig) : Except String (Bool × List (String × StoredConfig)) :=
  if ¬ qvalid config.query = true then
    .error ("Invalid Gmail search query \x27" ++ config.query ++ "\x27")
  else
    match lookup name configs with
    | none => .ok (false, configs)
    | some old_config_dict =>
      let config_dict := to_dict config
      let config_dict2 :=
        if config_dict.created_at = config.created_at then
          { config_dict with created_at := old_config_dict.created_at }
        else config_dict
      .ok (true, setEntry name config_dict2 configs)

end SearchStore

open SearchStore in
/-- C10.  Updating an existing configuration with a valid query always
succeeds and preserves the stored `created_at`: the freshly serialized
`created_at` necessarily equals the caller value (line 686 compares
`isoformat()` against itself), so the branch restoring the original
stored timestamp is always taken, whatever `created_at` the caller
supplied. -/
theorem claim_C10 (qvalid : String → Bool)
    (configs : List (String × StoredConfig)) (name : String)
    (config : SearchConfig) (old : StoredConfig)
    (hvalid : qvalid config.query = true)
    (hold : lookup name configs = some old) :
    ∃ configs2,
      update_config qvalid configs name config = .ok (true, configs2)
      ∧ lookup name configs2
          = some { to_dict config with created_at := old.created_at }
      ∧ (lookup name configs2).map (fun d => d.created_at)
          = some old.created_at := by
  refine ⟨setEntry name { to_dict config with created_at := old.created_at } configs,
    ?_, ?_, ?_⟩
  · unfold update_config
    rw [if_neg (by simp [hvalid]), hold]
    simp [to_dict]
  · exact lookup_setEntry name _ configs
  · rw [lookup_setEntry name _ configs]
    rfl

open SearchStore in
/-- Witness for C10: updating the stored `work` entry with a fresh
`created_at` keeps the original stored timestamp. -/
theorem claim_C10_witness :
    ∃ configs2,
      update_config (fun _ => true)
          [("work", ⟨"work", "is:unread", "old desc",
            "2024-01-01T00:00:00", none, 3⟩)]
          "work"
          ⟨"work", "is:starred", "new desc", "2025-06-01T00:00:00", none, 0⟩
        = .ok (true, configs2)
      ∧ lookup "work" configs2
          = some { to_dict ⟨"work", "is:starred", "new desc",
              "2025-06-01T00:00:00", none, 0⟩ with
              created_at := "2024-01-01T00:00:00" }
      ∧ (lookup "work" configs2).map (fun d => d.created_at)
          = some "2024-01-01T00:00:00" :=
  claim_C10 (fun _ => true) _ "work"
    ⟨"work", "is:starred", "new desc", "2025-06-01T00:00:00", none, 0⟩
    ⟨"work", "is:unread", "old desc", "2024-01-01T00:00:00", none, 3⟩
    rfl rfl

open Transcript in
/-- Witness for the amended C8: ten clean items render exactly five
lines, the first five in input order. -/
theorem claim_C8_amended_witness :
    renderedActionLines (collectActionItems exW)
      = ["- t1", "- t2", "- t3", "- t4", "- t5"]
    ∧ (renderedActionLines (collectActionItems exW)).length = 5 := by
  have h := (claim_C8_amended exW "July 4, 2025").2.2.2 (by decide) (by decide)
  exact ⟨h.1.trans (by decide), h.2⟩

open YamlWriter in
/-- C1.  After any write (create or append) the stored record satisfies
`email_count = emails.length`; and writing a 2-email batch for a fresh
date followed by a 3-email batch for the same date stores the original
2 dictionaries followed by the new 3, with `email_count = 5`. -/
theorem claim_C1 :
    (∀ (existing : Option DailyRecord) (summaries : List Summarizer.EmailSummary)
        (date now : String),
      (write_daily_summary existing summaries date now).email_count
        = (write_daily_summary existing summaries date now).emails.length)
    ∧ ∀ (s2 s3 : List Summarizer.EmailSummary) (date now1 now2 : String),
        s2.length = 2 → s3.length = 3 →
        (write_daily_summary
            (some (write_daily_summary none s2 date now1)) s3 date now2).emails
            = s2.map summary_to_dict ++ s3.map summary_to_dict
        ∧ (write_daily_summary
            (some (write_daily_summary none s2 date now1)) s3 date now2).email_count
            = 5 := by
  constructor
  · intro existing summaries date now
    cases existing <;>
      simp [write_daily_summary, append_to_existing_summary,
        create_new_summary_file]
  · intro s2 s3 date now1 now2 h2 h3
    refine ⟨rfl, ?_⟩
    simp [write_daily_summary, append_to_existing_summary,
      create_new_summary_file, h2, h3]

open YamlWriter in
/-- Witness for C1: two concrete batches of sizes 2 and 3. -/
theorem claim_C1_witness :
    (write_daily_summary
        (some (write_daily_summary none
          [⟨"a1", "p@x", "d", [], [], "t1", "Medium"⟩,
           ⟨"a2", "q@x", "d", [], [], "t2", "High"⟩] "2025-07-04" "n1"))
        [⟨"b1", "r@x", "d", [], [], "t3", "Low"⟩,
         ⟨"b2", "r@x", "d", [], [], "t4", "Medium"⟩,
         ⟨"b3", "r@x", "d", [], [], "t5", "Medium"⟩] "2025-07-04" "n2").email_count
      = 5 :=
  (claim_C1.2
    [⟨"a1", "p@x", "d", [], [], "t1", "Medium"⟩,
     ⟨"a2", "q@x", "d", [], [], "t2", "High"⟩]
    [⟨"b1", "r@x", "d", [], [], "t3", "Low"⟩,
     ⟨"b2", "r@x", "d", [], [], "t4", "Medium"⟩,
     ⟨"b3", "r@x", "d", [], [], "t5", "Medium"⟩]
    "2025-07-04" "n1" "n2" rfl rfl).2

open YamlWriter in
/-- C4.  Creating an empty record never clobbers real data: an existing
record with positive count is returned untouched together with its
path; and starting from a state holding no real emails, two
consecutive create-empty calls leave `email_count = 0` with an empty
`emails` list and always address the single per-date path. -/
theorem claim_C4 (output_directory : String) :
    (∀ (record : DailyRecord) (date now : String),
      0 < record.email_count →
      create_empty_summary_file output_directory (some record) date now
        = (record, get_daily_summary_path output_directory date))
    ∧ ∀ (st : Option DailyRecord) (date now1 now2 : String),
        (st = none ∨ ∃ r, st = some r ∧ r.email_count = 0) →
        (create_empty_summary_file output_directory
            (some (create_empty_summary_file output_directory st date now1).1)
            date now2).1.email_count = 0
        ∧ (create_empty_summary_file output_directory
            (some (create_empty_summary_file output_directory st date now1).1)
            date now2).1.emails = []
        ∧ (create_empty_summary_file output_directory
            (some (create_empty_summary_file output_directory st date now1).1)
            date now2).2
          = get_daily_summary_path output_directory date
        ∧ (create_empty_summary_file output_directory st date now1).2
          = get_daily_summary_path output_directory date := by
  constructor
  · intro record date now h
    simp [create_empty_summary_file, h]
  · intro st date now1 now2 hst
    have hfirst : (create_empty_summary_file output_directory st date now1).1
        = empty_summary_data date now1 := by
      rcases hst with h | ⟨r, hr, hcount⟩
      · simp [h, create_empty_summary_file]
      · simp [hr, create_empty_summary_file, hcount]
    rw [hfirst]
    refine ⟨?_, ?_, ?_, ?_⟩
    · simp [create_empty_summary_file, empty_summary_data]
    · simp [create_empty_summary_file, empty_summary_data]
    · exact create_empty_summary_file_path output_directory _ date now2
    · exact create_empty_summary_file_path output_directory st date now1

open YamlWriter in
/-- Witness for C4: an existing 1-email record is untouched, and the
double create-empty scenario from the fresh state keeps a zero count. -/
theorem claim_C4_witness :
    create_empty_summary_file "email_summaries"
        (some { date := "2025-07-04", processed_at := "n0", email_count := 1,
                emails := [⟨"a", "p@x", "d", "t", [], [], "Medium"⟩] })
        "2025-07-04" "n1"
      = ({ date := "2025-07-04", processed_at := "n0", email_count := 1,
           emails := [⟨"a", "p@x", "d", "t", [], [], "Medium"⟩] },
         "email_summaries/2025-07-04.yaml")
    ∧ (create_empty_summary_file "email_summaries"
        (some (create_empty_summary_file "email_summaries" none
          "2025-07-04" "n1").1) "2025-07-04" "n2").1.email_count = 0 := by
  constructor
  · exact (claim_C4 "email_summaries").1
      { date := "2025-07-04", processed_at := "n0", email_count := 1,
        emails := [⟨"a", "p@x", "d", "t", [], [], "Medium"⟩] }
      "2025-07-04" "n1" (by decide)
  · exact ((claim_C4 "email_summaries").2 none "2025-07-04" "n1" "n2"
      (Or.inl rfl)).1

end EmailSummarizer
